import Mathlib

/-!
Verification of the sales-dashboard pipeline in `Streamlit Prueba/Streamlit.py`.

The program loads a CSV of sales records, derives a `Vendedor` (salesperson)
column by joining `NOMBRE` and `APELLIDO`, filters rows by a selected set of
regions, aggregates the filtered rows per salesperson (summing units and sale
amounts and deriving a share-of-total), and reports totals, per-salesperson
detail, and the full filtered table.

Two views of the data are embedded:

* a generic `DataFrame` (column names plus association-list rows), used for the
  loader's schema check (lines 17-38) and for the column-selection logic of the
  display sections (lines 183-184 and 189-191), where the set of columns is not
  fixed;

* a typed `Record`/`Table` view for the data-plane computations, valid because
  lines 51-54 of the source fix the columns used there (`REGION`,
  `VENTAS TOTALES`, `UNIDADES VENDIDAS`, and the derived `Vendedor`).

Sale amounts are modelled as exact rationals and unit counts as integers.
Pandas `groupby` is modelled with its default `sort=True` semantics: one group
per distinct key, keys in ascending order; `Series.unique` is modelled as
first-occurrence deduplication.
-/

/-- A cell of a loaded table: text, a number, or blank (missing). -/
inductive CellValue
  | text (s : String)
  | number (q : ℚ)
  | blank
deriving DecidableEq

/-- One loaded row: an association list from column name to cell value. -/
abbrev CsvRow := List (String × CellValue)

/-- Look a cell up by column name (first binding wins, as in a dataframe row). -/
def getCell (r : CsvRow) (c : String) : CellValue :=
  match r.find? (fun p => p.1 == c) with
  | some p => p.2
  | none => CellValue.blank

/-- The text content of a cell; name columns hold text in the source data. -/
def cellText : CellValue → String
  | .text s => s
  | _ => ""

/-- Set a cell, replacing an existing binding or appending a new column. -/
def setCell (r : CsvRow) (c : String) (v : CellValue) : CsvRow :=
  if r.any (fun p => p.1 == c) then r.map (fun p => if p.1 == c then (c, v) else p)
  else r ++ [(c, v)]

/-- An in-memory table: ordered column names and ordered rows. -/
structure DataFrame where
  cols : List String
  rows : List CsvRow
deriving DecidableEq

/-- Line 25: `df['Vendedor'] = df['NOMBRE'] + ' ' + df['APELLIDO']` — derive the
salesperson column by joining the two name columns with a space. -/
def addVendedorColumn (df : DataFrame) : DataFrame :=
  { cols := if "Vendedor" ∈ df.cols then df.cols else df.cols ++ ["Vendedor"]
    rows := df.rows.map (fun r =>
      setCell r "Vendedor"
        (CellValue.text (cellText (getCell r "NOMBRE") ++ " " ++ cellText (getCell r "APELLIDO")))) }

/-- The outcome of `pd.read_csv` inside `load_data`: the file may be missing
(`FileNotFoundError`, line 32), unreadable (the generic handler, line 36), or
parsed into a dataframe. -/
inductive ReadResult
  | fileNotFound
  | parseFailure
  | parsed (df : DataFrame)

/-- The messages `load_data` reports through `st.error` (lines 27, 33, 37). -/
inductive UIMessage
  | schemaMissingNameCols
  | fileMissing (fileName : String)
  | loadException
deriving DecidableEq

/-- Lines 17-38: `load_data` returns the table (with the derived `Vendedor`
column) or `None`, and reports an error message on each failure path. -/
def load_data (fileName : String) : ReadResult → Option DataFrame × List UIMessage
  | .parsed df =>
      if "NOMBRE" ∈ df.cols ∧ "APELLIDO" ∈ df.cols then (some (addVendedorColumn df), [])
      else (none, [UIMessage.schemaMissingNameCols])
  | .fileNotFound => (none, [UIMessage.fileMissing fileName])
  | .parseFailure => (none, [UIMessage.loadException])

/-- Line 183: the columns shown in the per-salesperson detail table — every
column except `NOMBRE`, `APELLIDO` and the derived `Vendedor`. -/
def columnas_a_mostrar (df : DataFrame) : List String :=
  df.cols.filter (fun c => !(["NOMBRE", "APELLIDO", "Vendedor"].contains c))

/-- Lines 189-191: the "Datos Completos" section displays `df_filtrado` itself,
with no column selection applied. -/
def fullTableView (df : DataFrame) : DataFrame := df

/-- One sales record, under the fixed schema of lines 51-54. -/
structure Record where
  nombre : String
  apellido : String
  region : String
  ventasTotales : ℚ
  unidadesVendidas : ℤ
deriving DecidableEq

/-- Line 25 specialised to a typed record: the derived grouping key. -/
def Record.vendedor (r : Record) : String := r.nombre ++ " " ++ r.apellido

/-- A typed table: the ordered collection of records. -/
abbrev Table := List Record

/-- Lines 68-72: the region filter. An empty selection yields the empty table
(line 70, `pd.DataFrame(columns=df_ventas.columns)`); otherwise rows whose
region is in the selection are kept (line 72, `isin`). -/
def filterByRegion (df : Table) (sel : List String) : Table :=
  if sel.isEmpty then [] else df.filter (fun r => sel.contains r.region)

/-- Line 91: `total_ventas = float(df_filtrado[COLUMNA_VENTAS].sum())`. -/
def total_ventas (df : Table) : ℚ := (df.map Record.ventasTotales).sum

/-- Line 92: `total_unidades = int(df_filtrado[COLUMNA_UNIDADES].sum())`. -/
def total_unidades (df : Table) : ℤ := (df.map Record.unidadesVendidas).sum

/-- First-occurrence deduplication, the semantics of pandas `Series.unique`
(used at lines 60, 161, 175). `seen` accumulates values already emitted. -/
def uniqueAux (seen : List String) : List String → List String
  | [] => []
  | a :: l => if a ∈ seen then uniqueAux seen l else a :: uniqueAux (a :: seen) l

/-- The distinct values of a string column, in order of first occurrence. -/
def uniqueList (l : List String) : List String := uniqueAux [] l

/-- The group keys of lines 105-108: pandas `groupby(COLUMNA_VENDEDOR)` with its
default `sort=True` produces one group per distinct salesperson name, keys in
ascending order. Line 161 (`sorted(df_filtrado[COLUMNA_VENDEDOR].unique())`)
computes the same list. -/
def vendedorKeys (df : Table) : List String :=
  List.insertionSort (· ≤ ·) (uniqueList (df.map Record.vendedor))

/-- Line 171: `df_vendedor = df_filtrado[df_filtrado[COLUMNA_VENDEDOR] == vendedor_seleccionado]`.
This is also the fiber of one `groupby` group. -/
def df_vendedor (df : Table) (v : String) : Table :=
  df.filter (fun r => r.vendedor == v)

/-- One aggregated row of `df_agrupado`: the group key and the two sums. -/
structure AggregateRow where
  vendedor : String
  unidadesVendidas : ℤ
  ventasTotales : ℚ
deriving DecidableEq

/-- Lines 105-108: group the filtered table by salesperson and sum the units
and sale-amount columns of each group. -/
def df_agrupado (df : Table) : List AggregateRow :=
  (vendedorKeys df).map (fun v =>
    { vendedor := v
      unidadesVendidas := total_unidades (df_vendedor df v)
      ventasTotales := total_ventas (df_vendedor df v) })

/-- Line 111: the grand total of the aggregated sale amounts. -/
def total_ventas_filtrado (df : Table) : ℚ :=
  ((df_agrupado df).map AggregateRow.ventasTotales).sum

/-- Lines 112-115: each group's share of total sales, guarded by
`if total_ventas_filtrado > 0`; otherwise every share is the constant 0. -/
def porcentajeVentas (df : Table) : List ℚ :=
  if total_ventas_filtrado df > 0 then
    (df_agrupado df).map (fun g => g.ventasTotales / total_ventas_filtrado df)
  else
    (df_agrupado df).map (fun _ => 0)

/-- Line 173: the selected salesperson's sale-amount total. -/
def kpi_v_ventas (df : Table) (v : String) : ℚ := total_ventas (df_vendedor df v)

/-- Line 174: the selected salesperson's unit total. -/
def kpi_v_unidades (df : Table) (v : String) : ℤ := total_unidades (df_vendedor df v)

/-- Line 175, inner part: the distinct regions the salesperson appears in. -/
def kpi_v_regiones (df : Table) (v : String) : List String :=
  uniqueList ((df_vendedor df v).map Record.region)

/-- Line 175: the region list joined with a comma for display. -/
def kpi_v_region (df : Table) (v : String) : String :=
  String.intercalate ", " (kpi_v_regiones df v)

/-- A one-record table with a positive sale amount, used as a concrete input. -/
def tablePos : Table :=
  [{ nombre := "Ana", apellido := "García", region := "Este", ventasTotales := 100,
     unidadesVendidas := 2 }]

/-- A one-record table whose only sale amount is zero, so the grand total is zero. -/
def tableZero : Table :=
  [{ nombre := "Ana", apellido := "García", region := "Este", ventasTotales := 0,
     unidadesVendidas := 2 }]

/-- A one-record table with a negative sale amount, so the grand total is negative. -/
def tableNeg : Table :=
  [{ nombre := "Luis", apellido := "Pérez", region := "Oeste", ventasTotales := -5,
     unidadesVendidas := 1 }]

/-- A loaded table with the full schema of the source file plus the derived column. -/
def dfFull : DataFrame :=
  { cols := ["NOMBRE", "APELLIDO", "REGION", "VENTAS TOTALES", "UNIDADES VENDIDAS", "Vendedor"]
    rows := [] }

/-- A parsed file whose `APELLIDO` column is absent. -/
def dfNoApellido : DataFrame := { cols := ["NOMBRE", "REGION"], rows := [] }

/-- Membership in `uniqueAux seen l`: the values of `l` not already seen. -/
lemma mem_uniqueAux {a : String} : ∀ (l seen : List String),
    a ∈ uniqueAux seen l ↔ a ∈ l ∧ a ∉ seen := by
  intro l
  induction l with
  | nil => intro seen; simp [uniqueAux]
  | cons b l ih =>
    intro seen
    by_cases hb : b ∈ seen
    · simp only [uniqueAux, if_pos hb, ih, List.mem_cons]
      constructor
      · rintro ⟨h1, h2⟩; exact ⟨Or.inr h1, h2⟩
      · rintro ⟨h1, h2⟩
        rcases h1 with rfl | h1
        · exact absurd hb h2
        · exact ⟨h1, h2⟩
    · simp only [uniqueAux, if_neg hb, List.mem_cons, ih]
      constructor
      · rintro (rfl | ⟨h1, h2⟩)
        · exact ⟨Or.inl rfl, hb⟩
        · constructor
          · exact Or.inr h1
          · intro hs; exact h2 (Or.inr hs)
      · rintro ⟨h1, h2⟩
        by_cases hab : a = b
        · exact Or.inl hab
        · refine Or.inr ⟨?_, ?_⟩
          · rcases h1 with h | h
            · exact absurd h hab
            · exact h
          · intro hs
            rcases hs with h | h
            · exact hab h
            · exact h2 h

/-- The output of `uniqueAux` has no duplicates. -/
lemma nodup_uniqueAux : ∀ (l seen : List String), (uniqueAux seen l).Nodup := by
  intro l
  induction l with
  | nil => intro seen; simp [uniqueAux]
  | cons b l ih =>
    intro seen
    by_cases hb : b ∈ seen
    · simpa only [uniqueAux, if_pos hb] using ih seen
    · simp only [uniqueAux, if_neg hb, List.nodup_cons]
      refine ⟨?_, ih (b :: seen)⟩
      intro hmem
      exact ((mem_uniqueAux l (b :: seen)).mp hmem).2 (List.mem_cons_self b seen)

/-- The distinct-values list has no duplicates. -/
lemma nodup_uniqueList (l : List String) : (uniqueList l).Nodup := nodup_uniqueAux l []

/-- The distinct-values list has the same members as the column it came from. -/
lemma mem_uniqueList {a : String} {l : List String} : a ∈ uniqueList l ↔ a ∈ l := by
  rw [uniqueList, mem_uniqueAux]
  simp

/-- The group-key list has no duplicates: one aggregate row per distinct name. -/
lemma nodup_vendedorKeys (df : Table) : (vendedorKeys df).Nodup :=
  ((List.perm_insertionSort _ _).nodup_iff).mpr (nodup_uniqueList _)

/-- Every record's derived name appears among the group keys. -/
lemma vendedor_mem_vendedorKeys {df : Table} {r : Record} (h : r ∈ df) :
    r.vendedor ∈ vendedorKeys df := by
  unfold vendedorKeys
  rw [(List.perm_insertionSort _ _).mem_iff, mem_uniqueList]
  exact List.mem_map_of_mem _ h

/-- Summing an indicator over a list where the selected key is absent gives zero. -/
lemma sum_map_ite_not_mem (x : String) (c : ℚ) (ks : List String) (h : x ∉ ks) :
    (ks.map (fun v => if x = v then c else 0)).sum = 0 := by
  induction ks with
  | nil => simp
  | cons k ks ih =>
    rw [List.mem_cons, not_or] at h
    simp [if_neg h.1, ih h.2]

/-- Summing an indicator over a duplicate-free list containing the key picks the value once. -/
lemma sum_map_ite_mem (x : String) (c : ℚ) (ks : List String) (hN : ks.Nodup) (hx : x ∈ ks) :
    (ks.map (fun v => if x = v then c else 0)).sum = c := by
  induction ks with
  | nil => cases hx
  | cons k ks ih =>
    rw [List.nodup_cons] at hN
    rcases List.mem_cons.mp hx with rfl | h
    · simp [sum_map_ite_not_mem x c ks hN.1]
    · have hne : x ≠ k := fun he => hN.1 (he ▸ h)
      simp [if_neg hne, ih hN.2 h]

/-- Partition identity: summing the per-group sale totals over any duplicate-free
key list that covers every record gives the whole table's sale total. -/
lemma sum_fiber_ventas (ks : List String) (hN : ks.Nodup) :
    ∀ df : Table, (∀ r ∈ df, r.vendedor ∈ ks) →
      (ks.map (fun v => total_ventas (df_vendedor df v))).sum = total_ventas df := by
  intro df
  induction df with
  | nil =>
    intro _
    simp [df_vendedor, total_ventas]
  | cons r rest ih =>
    intro hcov
    have hcov' : ∀ x ∈ rest, x.vendedor ∈ ks := fun x hx => hcov x (List.mem_cons_of_mem r hx)
    have hmem : r.vendedor ∈ ks := hcov r (List.mem_cons_self r rest)
    have hstep : ∀ v, total_ventas (df_vendedor (r :: rest) v)
        = (if r.vendedor = v then r.ventasTotales else 0) + total_ventas (df_vendedor rest v) := by
      intro v
      by_cases h : r.vendedor = v
      · simp [df_vendedor, List.filter_cons, h, total_ventas]
      · simp [df_vendedor, List.filter_cons, h, total_ventas]
    calc (ks.map fun v => total_ventas (df_vendedor (r :: rest) v)).sum
        = (ks.map fun v =>
            (if r.vendedor = v then r.ventasTotales else 0) + total_ventas (df_vendedor rest v)).sum :=
          congrArg List.sum (List.map_congr_left (fun v _ => hstep v))
      _ = (ks.map fun v => if r.vendedor = v then r.ventasTotales else 0).sum
            + (ks.map fun v => total_ventas (df_vendedor rest v)).sum := List.sum_map_add
      _ = r.ventasTotales + total_ventas rest := by
          rw [sum_map_ite_mem _ _ _ hN hmem, ih hcov']
      _ = total_ventas (r :: rest) := by simp [total_ventas]

/-- The grand total of the aggregated sale amounts equals the table's sale total. -/
lemma total_ventas_filtrado_eq (df : Table) : total_ventas_filtrado df = total_ventas df := by
  have hmap : (df_agrupado df).map AggregateRow.ventasTotales
      = (vendedorKeys df).map (fun v => total_ventas (df_vendedor df v)) := by
    simp [df_agrupado, List.map_map, Function.comp_def]
  unfold total_ventas_filtrado
  rw [hmap, sum_fiber_ventas (vendedorKeys df) (nodup_vendedorKeys df) df
    (fun r hr => vendedor_mem_vendedorKeys hr)]

/-- A column is shown in the detail table exactly when it is a column of the
table and is none of the three identity columns. -/
lemma mem_columnas_a_mostrar {c : String} {df : DataFrame} :
    c ∈ columnas_a_mostrar df ↔
      c ∈ df.cols ∧ c ∉ (["NOMBRE", "APELLIDO", "Vendedor"] : List String) := by
  simp [columnas_a_mostrar, List.mem_filter]

/-- Claim C1, counterexample: a non-empty filtered Table (one record, sale
amount 0, filtered with its own region) on which the sum of the shares is not 1:
the grand total is 0, so every share is 0. -/
theorem shares_sum_claim_cex :
    filterByRegion tableZero ["Este"] ≠ [] ∧
    (porcentajeVentas (filterByRegion tableZero ["Este"])).sum ≠ 1 := by
  have hfil : filterByRegion tableZero ["Este"] = tableZero := by
    simp [filterByRegion, tableZero]
  rw [hfil]
  constructor
  · simp [tableZero]
  · norm_num [porcentajeVentas, total_ventas_filtrado, df_agrupado, vendedorKeys, uniqueList,
      uniqueAux, df_vendedor, total_ventas, Record.vendedor, tableZero,
      List.insertionSort, List.orderedInsert]

/-- Claim C1 (amended): for every Table whose grand total of sale amounts is
strictly positive, the shares produced by the aggregation sum to exactly 1; when
the grand total is not strictly positive (the empty Table, all-zero sales, or a
negative total), every share is 0 and no division by zero occurs. -/
theorem shares_sum_amended (df : Table) :
    (0 < total_ventas_filtrado df → (porcentajeVentas df).sum = 1) ∧
    (¬ 0 < total_ventas_filtrado df → ∀ q ∈ porcentajeVentas df, q = 0) := by
  constructor
  · intro h
    rw [porcentajeVentas, if_pos h]
    have hrw : ((df_agrupado df).map fun g => g.ventasTotales / total_ventas_filtrado df)
        = (df_agrupado df).map fun g => g.ventasTotales * (total_ventas_filtrado df)⁻¹ := by
      simp [div_eq_mul_inv]
    rw [hrw, List.sum_map_mul_right]
    have hsum : ((df_agrupado df).map fun g => AggregateRow.ventasTotales g).sum
        = total_ventas_filtrado df := rfl
    rw [hsum, mul_inv_cancel₀ (ne_of_gt h)]
  · intro h
    rw [porcentajeVentas, if_neg h]
    simp

/-- Witness for C1 (amended): on `tablePos` the total 100 is positive and the
shares sum to 1; on `tableZero` the total is 0 and every share is 0. -/
theorem shares_sum_amended_witness :
    (0 < total_ventas_filtrado tablePos ∧ (porcentajeVentas tablePos).sum = 1) ∧
    (¬ 0 < total_ventas_filtrado tableZero ∧ ∀ q ∈ porcentajeVentas tableZero, q = 0) := by
  have hpos : 0 < total_ventas_filtrado tablePos := by
    norm_num [total_ventas_filtrado, df_agrupado, vendedorKeys, uniqueList, uniqueAux,
      df_vendedor, total_ventas, Record.vendedor, tablePos, List.insertionSort, List.orderedInsert]
  have hz : ¬ 0 < total_ventas_filtrado tableZero := by
    norm_num [total_ventas_filtrado, df_agrupado, vendedorKeys, uniqueList, uniqueAux,
      df_vendedor, total_ventas, Record.vendedor, tableZero, List.insertionSort, List.orderedInsert]
  exact ⟨⟨hpos, (shares_sum_amended tablePos).1 hpos⟩,
    ⟨hz, (shares_sum_amended tableZero).2 hz⟩⟩

/-- Claim C2: for every Table and every region selection, the summary grand
total of sale amounts over the filtered Table (line 91) equals the sum of the
per-salesperson sale-amount sums produced by the aggregation (lines 105-111):
the two independent computation paths agree. -/
theorem summary_total_agrees (df : Table) (sel : List String) :
    total_ventas (filterByRegion df sel) = total_ventas_filtrado (filterByRegion df sel) :=
  (total_ventas_filtrado_eq _).symm

/-- Claim C3, counterexample: on a filtered Table with the source schema, the
full-table view does not equal the table with the first-name, last-name and
derived-name columns removed — the view keeps all columns. -/
theorem projection_claim_cex :
    (fullTableView dfFull).cols ≠ columnas_a_mostrar dfFull := by decide

/-- Claim C3 (amended): the full-table projection (line 191) is the filtered
Table unchanged — every column and every row is retained; the removal of the
`NOMBRE`, `APELLIDO` and `Vendedor` columns happens in the per-salesperson
detail table (line 183), which keeps exactly the other columns. -/
theorem projection_amended (df : DataFrame) :
    fullTableView df = df ∧
    (∀ c ∈ (["NOMBRE", "APELLIDO", "Vendedor"] : List String), c ∉ columnas_a_mostrar df) ∧
    (∀ c ∈ df.cols, c ∉ (["NOMBRE", "APELLIDO", "Vendedor"] : List String) →
      c ∈ columnas_a_mostrar df) := by
  refine ⟨rfl, ?_, ?_⟩
  · intro c hc hmem
    exact (mem_columnas_a_mostrar.mp hmem).2 hc
  · intro c hc hnot
    exact mem_columnas_a_mostrar.mpr ⟨hc, hnot⟩

/-- Witness for C3 (amended): on the source schema the full-table view is the
table itself, the detail table keeps `REGION` and drops `NOMBRE`. -/
theorem projection_amended_witness :
    fullTableView dfFull = dfFull ∧ "REGION" ∈ columnas_a_mostrar dfFull ∧
    "NOMBRE" ∉ columnas_a_mostrar dfFull :=
  ⟨(projection_amended dfFull).1,
    (projection_amended dfFull).2.2 "REGION" (by decide) (by decide),
    (projection_amended dfFull).2.1 "NOMBRE" (by decide)⟩

/-- Claim C4: loading a parsed file in which the `NOMBRE` or the `APELLIDO`
column is absent reports the schema error message and returns no table, for any
file name and any such file. -/
theorem load_schema_error (fileName : String) (df : DataFrame)
    (h : "NOMBRE" ∉ df.cols ∨ "APELLIDO" ∉ df.cols) :
    load_data fileName (ReadResult.parsed df) = (none, [UIMessage.schemaMissingNameCols]) := by
  have hnot : ¬ ("NOMBRE" ∈ df.cols ∧ "APELLIDO" ∈ df.cols) := by tauto
  simp only [load_data]
  rw [if_neg hnot]

/-- Witness for C4: a file with columns `NOMBRE` and `REGION` only is rejected
with the schema error and yields no table. -/
theorem load_schema_error_witness :
    load_data "vendedores.csv" (ReadResult.parsed dfNoApellido)
      = (none, [UIMessage.schemaMissingNameCols]) :=
  load_schema_error "vendedores.csv" dfNoApellido (Or.inr (by decide))

/-- Claim C5: filtering any Table with an empty region selection returns the
empty Table, and this is an ordinary value, not an error. -/
theorem filter_empty_selection (df : Table) : filterByRegion df [] = [] := by
  simp [filterByRegion]

/-- Claim C6: the region filter is idempotent — filtering twice with the same
selection gives the same result as filtering once, for every Table and
selection. -/
theorem filter_idempotent (df : Table) (sel : List String) :
    filterByRegion (filterByRegion df sel) sel = filterByRegion df sel := by
  cases sel with
  | nil => simp [filterByRegion]
  | cons s sel => simp [filterByRegion, List.filter_filter]

/-- Claim C7: when the requested salesperson has no matching record in the
filtered Table, the detail computation returns the empty row subset, zero sale
and unit totals, and an empty region list (joined to the empty string) — a
degenerate result, not a fault. -/
theorem entity_detail_empty (df : Table) (v : String) (h : ∀ r ∈ df, r.vendedor ≠ v) :
    df_vendedor df v = [] ∧ kpi_v_ventas df v = 0 ∧ kpi_v_unidades df v = 0 ∧
    kpi_v_regiones df v = [] ∧ kpi_v_region df v = "" := by
  have hnil : df_vendedor df v = [] := by
    rw [df_vendedor, List.filter_eq_nil_iff]
    intro r hr
    simp [h r hr]
  refine ⟨hnil, ?_, ?_, ?_, ?_⟩ <;>
    simp [kpi_v_ventas, kpi_v_unidades, kpi_v_regiones, kpi_v_region, hnil,
      total_ventas, total_unidades, uniqueList, uniqueAux, String.intercalate]

/-- Witness for C7: requesting a salesperson absent from `tablePos` yields the
empty detail output. -/
theorem entity_detail_empty_witness :
    df_vendedor tablePos "Nadie Nadie" = [] ∧ kpi_v_ventas tablePos "Nadie Nadie" = 0 ∧
    kpi_v_unidades tablePos "Nadie Nadie" = 0 ∧ kpi_v_regiones tablePos "Nadie Nadie" = [] ∧
    kpi_v_region tablePos "Nadie Nadie" = "" :=
  entity_detail_empty tablePos "Nadie Nadie" (by decide)

/-- Claim C9: for every non-empty Table, the aggregate rows are ordered
ascending by the salesperson name (the group key), with one row per distinct
name — pandas `groupby` sorts its keys by default. -/
theorem aggregate_keys_sorted (df : Table) (_h : df ≠ []) :
    ((df_agrupado df).map AggregateRow.vendedor).Sorted (· ≤ ·) ∧
    ((df_agrupado df).map AggregateRow.vendedor).Nodup := by
  have hkeys : (df_agrupado df).map AggregateRow.vendedor = vendedorKeys df := by
    simp [df_agrupado, List.map_map, Function.comp_def]
  rw [hkeys]
  exact ⟨List.sorted_insertionSort _ _, nodup_vendedorKeys df⟩

/-- Witness for C9: the aggregate rows of the non-empty `tablePos` have sorted,
duplicate-free keys. -/
theorem aggregate_keys_sorted_witness :
    ((df_agrupado tablePos).map AggregateRow.vendedor).Sorted (· ≤ ·) ∧
    ((df_agrupado tablePos).map AggregateRow.vendedor).Nodup :=
  aggregate_keys_sorted tablePos (by simp [tablePos])

/-- Claim C10: when the grand total of sale amounts is negative, every share is
0, because the share computation is guarded by a strictly-positive test on the
grand total (line 112), not by a nonzero test. -/
theorem negative_total_shares_zero (df : Table) (h : total_ventas_filtrado df < 0) :
    ∀ q ∈ porcentajeVentas df, q = 0 := by
  have hnot : ¬ total_ventas_filtrado df > 0 := by
    intro h'
    exact lt_irrefl _ (h.trans h')
  rw [porcentajeVentas, if_neg hnot]
  simp

/-- Witness for C10: `tableNeg` has grand total -5 and all of its shares are 0. -/
theorem negative_total_shares_zero_witness :
    total_ventas_filtrado tableNeg < 0 ∧ ∀ q ∈ porcentajeVentas tableNeg, q = 0 := by
  have hneg : total_ventas_filtrado tableNeg < 0 := by
    norm_num [total_ventas_filtrado, df_agrupado, vendedorKeys, uniqueList, uniqueAux,
      df_vendedor, total_ventas, Record.vendedor, tableNeg, List.insertionSort, List.orderedInsert]
  exact ⟨hneg, negative_total_shares_zero tableNeg hneg⟩
